import Mathlib

/-!
Verification of the Multi-Agent-AI-System document-intelligence components.

The definitions below are shallow embeddings of the Python source:
* `src/src/utils/model_manager.py` (`UnifiedModelManager` and providers),
* `src/src/agents/document_intelligence_agent.py`,
* `src/src/workflows/document_intelligence_workflow.py`.

Python exceptions are modelled with `Except String`, provider objects by
their registry names (the registry dict maps unique names to provider
objects, so a name identifies a provider), and the file system or LLM
backends by explicit function parameters.
-/

/-- A model provider's generation behaviour: `gen prompt` is the text the
provider's `generate` returns, or (`Except.error`) the exception it raises.
Mirrors `BaseModelProvider` of `src/src/utils/model_manager.py`. -/
structure Provider where
  name : String
  gen : String → Except String String

namespace ModelManager

/-- `UnifiedModelManager.generate` (model_manager.py lines 285-303).
`active` and `fallback` are the manager's `active_provider` and
`fallback_provider` references.  Besides the result we return the trace of
provider names whose `generate` was invoked, in call order, so that
call-count properties can be stated.  The Python `raise` inside the inner
`except` block re-raises the fallback's exception (the innermost active
exception), and the outer bare `raise` re-raises the original. -/
def generate (active fallback : Option Provider) (prompt : String) :
    Except String String × List String :=
  match active with
  | none => (Except.error "No model providers available", [])
  | some p =>
    match p.gen prompt with
    | Except.ok r => (Except.ok r, [p.name])
    | Except.error e =>
      match fallback with
      | none => (Except.error e, [p.name])
      | some f =>
        match f.gen prompt with
        | Except.ok r => (Except.ok r, [p.name, f.name])
        | Except.error e2 => (Except.error e2, [p.name, f.name])

end ModelManager

/-- The registry state of `UnifiedModelManager` (model_manager.py lines
226-233): the ordered mapping of registered provider names (insertion =
discovery order; the dict's values are recovered from names, which are
unique keys), plus the `active_provider` and `fallback_provider`
references, identified by their registry names. -/
structure Manager where
  providers : List String
  active : Option String
  fallback : Option String
deriving DecidableEq

namespace ModelManager

/-- `_initialize_providers` (lines 235-259): an `OllamaProvider` is
registered under "ollama" iff its `is_available()` returned true, then a
`HuggingFaceProvider` under "huggingface" likewise; discovery order is
ollama before huggingface. -/
def initialize_providers (ollamaAvailable hfAvailable : Bool) : List String :=
  (if ollamaAvailable then ["ollama"] else []) ++
  (if hfAvailable then ["huggingface"] else [])

/-- `_set_active_provider` (lines 264-283): active := the configured
primary if registered; fallback := the configured fallback if registered
and distinct from the primary; if no active was set and the registry is
non-empty, active := the first registered name (`list(keys)[0]`). -/
def set_active_provider (providers : List String) (primary fallback : String) :
    Option String × Option String :=
  let active0 : Option String := if primary ∈ providers then some primary else none
  let fb : Option String :=
    if fallback ∈ providers ∧ fallback ≠ primary then some fallback else none
  let active : Option String :=
    match active0 with
    | some a => some a
    | none => providers.head?
  (active, fb)

/-- `UnifiedModelManager.__init__` followed by `_initialize_providers` and
`_set_active_provider`, for given init-time availability of the two
providers and the configured `MODEL_PROVIDER` / `FALLBACK_PROVIDER`. -/
def mkManager (ollamaAvailable hfAvailable : Bool) (primary fallback : String) : Manager :=
  let ps := initialize_providers ollamaAvailable hfAvailable
  let af := set_active_provider ps primary fallback
  ⟨ps, af.1, af.2⟩

/-- `get_available_providers` (lines 305-307): returns
`list(self.providers.keys())`, the names registered at construction. -/
def get_available_providers (m : Manager) : List String :=
  m.providers

/-- `listAvailable` as the spec words it: the provider names whose
`isAvailable()` returns true at the time of the call, re-evaluated on each
call through the `isAvailableNow` oracle.  Stated only to be compared with
the source's `get_available_providers`. -/
def listAvailableSpec (m : Manager) (isAvailableNow : String → Bool) : List String :=
  m.providers.filter isAvailableNow

/-- `switch_provider` (lines 309-317): if the name is registered, set the
active reference to that provider and return `True`; otherwise return
`False` and leave the state untouched. -/
def switch_provider (m : Manager) (name : String) : Bool × Manager :=
  if name ∈ m.providers then (true, { m with active := some name })
  else (false, m)

/-- `get_active_provider_name` (lines 333-338): the first registered name
whose provider object is the active reference. -/
def get_active_provider_name (m : Manager) : Option String :=
  m.providers.find? (fun n => m.active == some n)

/-- The initialization policy as the spec words it: active = the
configured primary if available, else the configured fallback if
available, else the first available provider found, else unset.  Stated
only to be compared with the source's `_set_active_provider`. -/
def specActiveProvider (availableProviders : List String) (primary fallback : String) :
    Option String :=
  if primary ∈ availableProviders then some primary
  else if fallback ∈ availableProviders then some fallback
  else availableProviders.head?

end ModelManager

namespace DocAgent

/-- `DocumentIntelligenceAgent.switch_model_provider`
(document_intelligence_agent.py lines 385-397): delegates to
`model_manager.switch_provider`; on success it reconfigures the extractor
and splitter, which does not touch the registry state; returns the same
boolean. -/
def switch_model_provider (m : Manager) (providerName : String) : Bool × Manager :=
  ModelManager.switch_provider m providerName

/-- `DocumentIntelligenceAgent.process_document_with_provider`
(document_intelligence_agent.py lines 414-456).  `extractionResult`
abstracts the inner `process_document` call: the records it returns, or
the exception it raises.  The `try`-body either runs the extraction (after
an optional switch) or raises `ValueError` when the switch fails; the
`finally` block restores the original provider when a switch away from a
non-`None` original provider was requested. -/
def process_document_with_provider (m : Manager) (providerName : Option String)
    (extractionResult : Except String (List String)) :
    Except String (List String) × Manager :=
  let original := ModelManager.get_active_provider_name m
  let attempt : Except String (List String) × Manager :=
    match providerName with
    | none => (extractionResult, m)
    | some name =>
      if some name = original then (extractionResult, m)
      else
        let sw := switch_model_provider m name
        if sw.1 then (extractionResult, sw.2)
        else (Except.error ("Cannot switch to provider: " ++ name), sw.2)
  match providerName, original with
  | some name, some orig =>
    if name = orig then attempt
    else (attempt.1, (switch_model_provider attempt.2 orig).2)
  | _, _ => attempt

end DocAgent

/-- A concrete registry state used by closed witness theorems: both
providers registered, ollama active, huggingface as fallback. -/
def sampleManager : Manager :=
  ⟨["ollama", "huggingface"], some "ollama", some "huggingface"⟩

/-- The two splitter families of extract_thinker used by the agent:
`TextSplitter` and `ImageSplitter`. -/
inductive SplitterKind where
  | text
  | image
deriving DecidableEq

/-- A configured splitter: its family and the model string it was
constructed with. -/
structure Splitter where
  kind : SplitterKind
  model : String
deriving DecidableEq

namespace DocAgent

/-- `DocumentIntelligenceAgent._configure_splitter`
(document_intelligence_agent.py lines 201-233).  `maxContextTokens` is
`settings.MAX_CONTEXT_TOKENS` (an `int`), `activeProviderName` is
`model_manager.get_active_provider_name()`, and the two model strings are
`settings.OLLAMA_MODEL` / `settings.OLLAMA_VISION_MODEL`.  The `try` body
is pure, so the fallback `except` branch is unreachable. -/
def configure_splitter (maxContextTokens : Int) (activeProviderName : Option String)
    (ollamaModel ollamaVisionModel : String) : Splitter :=
  if maxContextTokens ≤ 8192 then
    { kind := SplitterKind.text
      model :=
        if activeProviderName = some "ollama" then "ollama/" ++ ollamaModel
        else "text-splitter" }
  else
    { kind := SplitterKind.image
      model :=
        if activeProviderName = some "ollama" then "ollama/" ++ ollamaVisionModel
        else "vision-splitter" }

/-- The split-strategy selection policy as the spec words it: text
chunking at or below the low-context threshold; above it, image chunking
only when the provider is vision-capable and the caller requested
`useVision`, and text chunking in every other case.  Stated only to be
compared with the source's `_configure_splitter`. -/
def splitterKindSpec (contextWindowTokens : Int) (visionCapable useVision : Bool) :
    SplitterKind :=
  if contextWindowTokens ≤ 8192 then SplitterKind.text
  else if visionCapable && useVision then SplitterKind.image
  else SplitterKind.text

/-- Split a character list on a separator character; `splitOnChar cs sep`
is the list of chunks between occurrences of `sep` (empty chunks kept),
the character-level counterpart of splitting a string on "/". -/
def splitOnChar : List Char → Char → List (List Char)
  | [], _ => [[]]
  | c :: cs, sep =>
    if c == sep then [] :: splitOnChar cs sep
    else
      match splitOnChar cs sep with
      | [] => [[c]]
      | h :: t => (c :: h) :: t

/-- The final path component, as `pathlib.PurePath(path).name` computes it
for the paths this program handles: split on "/", drop empty and "."
components, and take the last remaining component (or "" when none
remain). -/
def lastPathComponent (path : String) : String :=
  let comps := (splitOnChar path.toList '/').map String.mk
  ((comps.filter (fun c => !(c == "") && !(c == "."))).getLast?).getD ""

/-- The index of the last '.' in a character list, if any. -/
def lastDotIdx : List Char → Option Nat
  | [] => none
  | c :: cs =>
    match lastDotIdx cs with
    | some i => some (i + 1)
    | none => if c == '.' then some 0 else none

/-- `pathlib.PurePath(path).suffix`: with `name` the final component and
`i` the index of its last dot, the suffix is `name[i:]` when
`0 < i < len(name) - 1`, else "". -/
def pathSuffix (path : String) : String :=
  let name := lastPathComponent path
  let cs := name.toList
  match lastDotIdx cs with
  | none => ""
  | some i => if 0 < i ∧ i < cs.length - 1 then String.mk (cs.drop i) else ""

/-- Python's `str.lower()` on the strings this program lowercases (file
names and extensions): `Char.toLower` lowercases the ASCII letters, which
covers every supported extension. -/
def lowerString (s : String) : String :=
  String.mk (s.toList.map Char.toLower)

/-- `get_supported_formats` (document_intelligence_agent.py lines
368-370). -/
def get_supported_formats : List String :=
  [".pdf", ".png", ".jpg", ".jpeg", ".tiff", ".bmp", ".docx", ".doc", ".txt"]

/-- `validate_document` (document_intelligence_agent.py lines 372-375):
the lowercased `Path(file_path).suffix` must be a supported format. -/
def validate_document (filePath : String) : Bool :=
  decide (lowerString (pathSuffix filePath) ∈ get_supported_formats)

/-- `sub` occurs as a contiguous sublist of `s` (checks a prefix match at
every position). -/
def containsSub : List Char → List Char → Bool
  | [], sub => sub.isEmpty
  | c :: tail, sub => sub.isPrefixOf (c :: tail) || containsSub tail sub

/-- `True` iff `sub` occurs as a substring (Python's `in` on strings). -/
def hasSub (s sub : String) : Bool :=
  containsSub s.toList sub.toList

/-- `classify_document` (document_intelligence_agent.py lines 297-322):
opens the file (modelled by `fileReadable`; any exception yields `none`)
and classifies by lowercased file-name patterns. -/
def classify_document (fileReadable : Bool) (filePath : String) : Option String :=
  if !fileReadable then none
  else
    let fileName := lowerString (lastPathComponent filePath)
    if hasSub fileName "invoice" || hasSub fileName "bill" then some "Invoice"
    else if hasSub fileName "license" || hasSub fileName "dl" then some "Driver License"
    else if hasSub fileName "passport" then some "Passport"
    else if hasSub fileName "business" || hasSub fileName "card" then some "Business Card"
    else some "Unknown"

end DocAgent

/-- The workflow state that `DocumentIntelligenceWorkflow.process_document`
returns to the caller (document_intelligence_workflow.py lines 211-218):
status, path, detected type, extracted records, error message and the
contents of the accumulated message list (the initial `HumanMessage`
followed by the `AIMessage`s appended by the nodes). -/
structure WorkflowResult where
  status : String
  documentPath : String
  documentType : String
  extractedData : List String
  errorMessage : String
  messages : List String
deriving DecidableEq

/-- A workflow run's outcome: the returned result plus whether the
classifier node and the extraction engine were ever invoked. -/
structure RunTrace where
  result : WorkflowResult
  classifierCalled : Bool
  extractorCalled : Bool
deriving DecidableEq

namespace Workflow

/-- `DocumentIntelligenceWorkflow.process_document` together with the
compiled graph it invokes (document_intelligence_workflow.py lines
36-229): START → `_validate_document`; on status "validated" continue to
`_classify_document` → `_process_document`, else `_handle_error` → END;
after processing, status "completed" ends, anything else goes through
`_handle_error`.  `fileExists` models `os.path.exists`, `fileReadable`
the `open()` inside `classify_document`, `maxContextTokens` is
`settings.MAX_CONTEXT_TOKENS`, and `extractionResult` abstracts the
agent's extraction call (records returned, or exception raised). -/
def run_workflow (fileExists : String → Bool) (fileReadable : Bool)
    (maxContextTokens : Int) (extractionResult : Except String (List String))
    (documentPath : String) (useVision : Bool) : RunTrace :=
  let st0 : WorkflowResult :=
    { status := "pending", documentPath := documentPath, documentType := "",
      extractedData := [], errorMessage := "",
      messages := ["Process document: " ++ documentPath] }
  let st1 : WorkflowResult :=
    if documentPath = "" then
      { st0 with status := "error", errorMessage := "No document path provided" }
    else if !(fileExists documentPath) then
      { st0 with
        status := "error"
        errorMessage := "Document not found: " ++ documentPath }
    else if !(DocAgent.validate_document documentPath) then
      { st0 with
        status := "error"
        errorMessage := "Unsupported document format: " ++ DocAgent.pathSuffix documentPath }
    else
      { st0 with
        status := "validated"
        messages := st0.messages ++
          ["Document validated successfully: " ++ DocAgent.lastPathComponent documentPath] }
  if st1.status ≠ "validated" then
    ⟨{ st1 with messages := st1.messages ++ ["Error: " ++ st1.errorMessage] },
      false, false⟩
  else
    let docType := (DocAgent.classify_document fileReadable documentPath).getD "Unknown"
    let st2 : WorkflowResult :=
      { st1 with
        documentType := docType
        status := "classified"
        messages := st1.messages ++ ["Document classified as: " ++ docType] }
    let strategyUsed :=
      if maxContextTokens ≤ 8192 then "pagination (limited context)"
      else "standard processing"
    let st3 : WorkflowResult :=
      match extractionResult with
      | Except.ok data =>
        { st2 with
          extractedData := data
          status := "completed"
          messages := st2.messages ++
            ["Document processed successfully using " ++ strategyUsed ++
             ". Extracted " ++ toString data.length ++ " data items."] }
      | Except.error e =>
        { st2 with
          status := "error"
          errorMessage := "Processing failed: " ++ e }
    if st3.status = "completed" then ⟨st3, true, true⟩
    else
      ⟨{ st3 with messages := st3.messages ++ ["Error: " ++ st3.errorMessage] },
        true, true⟩

end Workflow

/-- Modelled from the spec: the pagination merge of per-segment partial
field values performed by the external extract_thinker library under
`CompletionStrategy.PAGINATE` (no merge code exists under src/).  Per the
spec, later segments fill fields left empty by earlier ones and never
overwrite an already-populated field.  A partial record is a list of
(field, value) pairs; fields absent from the list are the empty ones. -/
def mergeSegmentFields (acc : List (String × String)) (seg : List (String × String)) :
    List (String × String) :=
  seg.foldl (fun a kv => if a.any (fun p => p.1 == kv.1) then a else a ++ [kv]) acc

/-- Modelled from the spec: fold `mergeSegmentFields` over the segments in
pagination order, starting from the record with every field empty. -/
def mergeSegments (segments : List (List (String × String))) : List (String × String) :=
  segments.foldl mergeSegmentFields []

/-- C1: `UnifiedModelManager.generate` always calls the active provider's
`generate` first; on success it returns that result with no retry; if the
active call raises and no fallback is configured, the original error is
re-raised with no retry; if a fallback is configured it is retried exactly
once, its success result is returned, and if it also fails its error (not
the original) is raised; at most two provider calls ever happen. -/
theorem generate_failover_policy (p : Provider) (fallback : Option Provider) (prompt : String) :
    (ModelManager.generate (some p) fallback prompt).2.head? = some p.name
  ∧ (ModelManager.generate (some p) fallback prompt).2.length ≤ 2
  ∧ (∀ r, p.gen prompt = Except.ok r →
      ModelManager.generate (some p) fallback prompt = (Except.ok r, [p.name]))
  ∧ (∀ e, p.gen prompt = Except.error e → fallback = none →
      ModelManager.generate (some p) fallback prompt = (Except.error e, [p.name]))
  ∧ (∀ e f r, p.gen prompt = Except.error e → fallback = some f →
      f.gen prompt = Except.ok r →
      ModelManager.generate (some p) fallback prompt = (Except.ok r, [p.name, f.name]))
  ∧ (∀ e f e2, p.gen prompt = Except.error e → fallback = some f →
      f.gen prompt = Except.error e2 →
      ModelManager.generate (some p) fallback prompt = (Except.error e2, [p.name, f.name])) := by
  cases hp : p.gen prompt with
  | ok r0 =>
    cases fallback with
    | none => simp [ModelManager.generate, hp]
    | some f =>
      cases hf : f.gen prompt with
      | ok r1 => simp [ModelManager.generate, hp, hf]
      | error e1 => simp [ModelManager.generate, hp, hf]
  | error e0 =>
    cases fallback with
    | none => simp [ModelManager.generate, hp]
    | some f =>
      cases hf : f.gen prompt with
      | ok r1 =>
        simp [ModelManager.generate, hp, hf]
        constructor
        · rintro e f1 r rfl rfl h
          rw [hf] at h
          cases h
          exact ⟨rfl, rfl⟩
        · rintro e f1 e2 rfl rfl h
          rw [hf] at h
          simp at h
      | error e1 =>
        simp [ModelManager.generate, hp, hf]
        constructor
        · rintro e f1 r rfl rfl h
          rw [hf] at h
          simp at h
        · rintro e f1 e2 rfl rfl h
          rw [hf] at h
          cases h
          exact ⟨rfl, rfl⟩

/-- Witness for C1: with an active provider that raises "ea" and a fallback
that raises "eb", `generate` raises the fallback's error after exactly the
two calls active-then-fallback. -/
theorem generate_failover_policy_witness :
    ModelManager.generate (some ⟨"a", fun _ => Except.error "ea"⟩)
      (some ⟨"b", fun _ => Except.error "eb"⟩) "q"
      = (Except.error "eb", ["a", "b"]) :=
  (generate_failover_policy ⟨"a", fun _ => Except.error "ea"⟩
      (some ⟨"b", fun _ => Except.error "eb"⟩) "q").2.2.2.2.2
    "ea" ⟨"b", fun _ => Except.error "eb"⟩ "eb" rfl rfl rfl

/-- C3 counterexample: with both providers available at init, the primary
configured to the unregistered name "openai" (the settings comment lists
it as an option) and the fallback configured to "huggingface", the code
sets active to the first discovered provider "ollama", while the claimed
policy (primary, else fallback, else first available) yields the fallback
"huggingface". -/
theorem init_policy_counterexample :
    (ModelManager.mkManager true true "openai" "huggingface").active = some "ollama"
  ∧ ModelManager.specActiveProvider (ModelManager.initialize_providers true true)
      "openai" "huggingface" = some "huggingface"
  ∧ (ModelManager.mkManager true true "openai" "huggingface").active ≠
      ModelManager.specActiveProvider (ModelManager.initialize_providers true true)
        "openai" "huggingface" := by
  decide

/-- C3 amended: after construction the active provider is the configured
primary if that provider is available, else the first available provider
in discovery order (the configured fallback is not preferred), else
unset; an unset active provider is not a construction error (`mkManager`
is total) and only `generate` fails on it, with the
"No model providers available" error and no provider call. -/
theorem init_policy_amended (ollamaAvailable hfAvailable : Bool) (primary fallback : String) :
    (ModelManager.mkManager ollamaAvailable hfAvailable primary fallback).active =
      (if primary ∈ ModelManager.initialize_providers ollamaAvailable hfAvailable
       then some primary
       else (ModelManager.initialize_providers ollamaAvailable hfAvailable).head?)
  ∧ (∀ fb prompt, ModelManager.generate none fb prompt
        = (Except.error "No model providers available", [])) := by
  constructor
  · by_cases h : primary ∈ ModelManager.initialize_providers ollamaAvailable hfAvailable <;>
      simp [ModelManager.mkManager, ModelManager.set_active_provider, h]
  · intro fb prompt
    rfl

/-- C4: `switch_provider` with an unregistered name returns `False` and
leaves the whole registry state (active, fallback, providers) exactly as
it was; with a registered name it returns `True` and replaces the active
reference in one step, leaving fallback and the registry untouched. -/
theorem switch_provider_policy (m : Manager) (name : String) :
    (name ∉ m.providers → ModelManager.switch_provider m name = (false, m))
  ∧ (name ∈ m.providers →
      ModelManager.switch_provider m name = (true, { m with active := some name }))
  ∧ (ModelManager.switch_provider m name).2.fallback = m.fallback
  ∧ (ModelManager.switch_provider m name).2.providers = m.providers := by
  by_cases h : name ∈ m.providers <;> simp [ModelManager.switch_provider, h]

/-- Witness for C4: switching `sampleManager` to the absent name "openai"
fails and returns the state unchanged. -/
theorem switch_provider_policy_witness :
    ModelManager.switch_provider sampleManager "openai" = (false, sampleManager) :=
  (switch_provider_policy sampleManager "openai").1 (by decide)

/-- C5 counterexample: a manager built with ollama available at init keeps
returning "ollama" from `get_available_providers` even when current
availability (the spec's re-evaluated `isAvailable()`) is false for every
provider, so the result is the construction-time snapshot, not a per-call
re-evaluation. -/
theorem list_available_counterexample :
    ModelManager.get_available_providers
        (ModelManager.mkManager true false "ollama" "huggingface") = ["ollama"]
  ∧ ModelManager.listAvailableSpec
        (ModelManager.mkManager true false "ollama" "huggingface") (fun _ => false) = []
  ∧ ModelManager.get_available_providers
        (ModelManager.mkManager true false "ollama" "huggingface") ≠
      ModelManager.listAvailableSpec
        (ModelManager.mkManager true false "ollama" "huggingface") (fun _ => false) := by
  decide

/-- C5 amended: `get_available_providers` returns exactly the names
registered during construction (the providers whose `is_available()` was
true while `_initialize_providers` ran), cached in the registry dict; it
takes no notice of availability at call time, so two calls always return
the same list. -/
theorem list_available_cached (ollamaAvailable hfAvailable : Bool) (primary fallback : String) :
    ModelManager.get_available_providers
        (ModelManager.mkManager ollamaAvailable hfAvailable primary fallback)
      = ModelManager.initialize_providers ollamaAvailable hfAvailable := rfl

/-- C9: when an active provider exists (its registry name `orig` is what
`get_active_provider_name` reports) and `process_document_with_provider`
is called with a different provider name, the registry state after the
call equals the state before it — whether the extraction returns records
or raises, and whether or not the requested switch succeeds. -/
theorem transient_switch_restores (m : Manager) (name orig : String)
    (extractionResult : Except String (List String))
    (h : ModelManager.get_active_provider_name m = some orig) (hne : name ≠ orig) :
    (DocAgent.process_document_with_provider m (some name) extractionResult).2.active
      = m.active
  ∧ (DocAgent.process_document_with_provider m (some name) extractionResult).2.providers
      = m.providers
  ∧ (DocAgent.process_document_with_provider m (some name) extractionResult).2.fallback
      = m.fallback := by
  have hfind : m.providers.find? (fun n => m.active == some n) = some orig := h
  have hm : m.active = some orig := by
    simpa using List.find?_some hfind
  have hmem : orig ∈ m.providers := List.mem_of_find?_eq_some hfind
  by_cases hn : name ∈ m.providers <;>
    simp [DocAgent.process_document_with_provider, DocAgent.switch_model_provider,
      ModelManager.switch_provider, h, hne, hm, hmem, hn]

/-- Witness for C9: a transient call on `sampleManager` asking for
"huggingface" (active is "ollama") leaves "ollama" active afterwards. -/
theorem transient_switch_restores_witness :
    (DocAgent.process_document_with_provider sampleManager (some "huggingface")
        (Except.ok [])).2.active = sampleManager.active :=
  (transient_switch_restores sampleManager "huggingface" "ollama" (Except.ok [])
    (by decide) (by decide)).1

/-- Helper: appending anything to a non-empty string is non-empty. -/
theorem string_append_ne_empty (s t : String) (h : s ≠ "") : s ++ t ≠ "" := by
  intro he
  apply h
  have hl : (s ++ t).length = 0 := by rw [he]; rfl
  rw [String.length_append] at hl
  have hs : s.length = 0 := by omega
  cases s with
  | mk data =>
    cases data with
    | nil => rfl
    | cons c cs => simp [String.length] at hs

/-- C2 counterexample: with a context budget of 8193 tokens the code
unconditionally builds an `ImageSplitter`, even when the caller did not
request vision and the provider is not vision-capable, whereas the claimed
policy selects text chunking in that case. -/
theorem splitter_selection_counterexample :
    (DocAgent.configure_splitter 8193 (some "ollama") "phi4:latest" "moondream:latest").kind
      = SplitterKind.image
  ∧ DocAgent.splitterKindSpec 8193 false false = SplitterKind.text
  ∧ (DocAgent.configure_splitter 8193 (some "ollama") "phi4:latest" "moondream:latest").kind
      ≠ DocAgent.splitterKindSpec 8193 false false := by
  decide

/-- C2 amended: the splitter family is a function of the context budget
alone — text chunking iff `MAX_CONTEXT_TOKENS ≤ 8192`, image chunking
otherwise, regardless of provider vision capability or the caller's
`useVision` request (neither is consulted by `_configure_splitter`). -/
theorem splitter_selection_amended (maxContextTokens : Int)
    (activeProviderName : Option String) (ollamaModel ollamaVisionModel : String) :
    (DocAgent.configure_splitter maxContextTokens activeProviderName
        ollamaModel ollamaVisionModel).kind
      = (if maxContextTokens ≤ 8192 then SplitterKind.text else SplitterKind.image) := by
  unfold DocAgent.configure_splitter
  split <;> rfl

/-- C6 counterexample: for the empty document path the run ends in status
"error" with classifier and extractor never invoked, but the returned
message list has two entries — the initial "Process document:" request
message plus the single error entry — not exactly one. -/
theorem invalid_path_trace_counterexample :
    (Workflow.run_workflow (fun _ => false) true 8192 (Except.ok []) "" false).result.messages
      = ["Process document: ", "Error: No document path provided"]
  ∧ (Workflow.run_workflow (fun _ => false) true 8192 (Except.ok [])
        "" false).result.messages.length ≠ 1 := by
  decide

/-- C6 amended: for every invalid document path (empty path, missing file,
or unsupported extension) the run ends in status "error" with a non-empty
error message, the classifier and the extraction engine are never
invoked, and exactly one trace entry is appended beyond the initial
request message, so the returned message list has exactly two entries. -/
theorem invalid_path_error_policy (fileExists : String → Bool) (fileReadable : Bool)
    (maxContextTokens : Int) (extractionResult : Except String (List String))
    (documentPath : String) (useVision : Bool)
    (h : documentPath = "" ∨ fileExists documentPath = false ∨
         DocAgent.validate_document documentPath = false) :
    (Workflow.run_workflow fileExists fileReadable maxContextTokens extractionResult
        documentPath useVision).result.status = "error"
  ∧ (Workflow.run_workflow fileExists fileReadable maxContextTokens extractionResult
        documentPath useVision).result.errorMessage ≠ ""
  ∧ (Workflow.run_workflow fileExists fileReadable maxContextTokens extractionResult
        documentPath useVision).classifierCalled = false
  ∧ (Workflow.run_workflow fileExists fileReadable maxContextTokens extractionResult
        documentPath useVision).extractorCalled = false
  ∧ (Workflow.run_workflow fileExists fileReadable maxContextTokens extractionResult
        documentPath useVision).result.messages.length = 2 := by
  rcases h with h1 | h2 | h3
  · subst h1
    exact ⟨rfl, by show "No document path provided" ≠ ""; decide, rfl, rfl, rfl⟩
  · by_cases h1 : documentPath = ""
    · subst h1
      exact ⟨rfl, by show "No document path provided" ≠ ""; decide, rfl, rfl, rfl⟩
    · have hne : ("Document not found: " ++ documentPath) ≠ "" :=
        string_append_ne_empty _ _ (by decide)
      refine ⟨?_, ?_, ?_, ?_, ?_⟩ <;>
        simp [Workflow.run_workflow, h1, h2, hne]
  · by_cases h1 : documentPath = ""
    · subst h1
      exact ⟨rfl, by show "No document path provided" ≠ ""; decide, rfl, rfl, rfl⟩
    · by_cases h2 : fileExists documentPath = true
      · have hne : ("Unsupported document format: " ++ DocAgent.pathSuffix documentPath) ≠ "" :=
          string_append_ne_empty _ _ (by decide)
        refine ⟨?_, ?_, ?_, ?_, ?_⟩ <;>
          simp [Workflow.run_workflow, h1, h2, h3, hne]
      · have hne : ("Document not found: " ++ documentPath) ≠ "" :=
          string_append_ne_empty _ _ (by decide)
        refine ⟨?_, ?_, ?_, ?_, ?_⟩ <;>
          simp [Workflow.run_workflow, h1, h2, hne]

/-- Witness for the amended C6: the empty path ends in "error" with a
non-empty message, no classifier or extractor call, and a two-entry
message list. -/
theorem invalid_path_error_policy_witness :
    (Workflow.run_workflow (fun _ => false) true 8192 (Except.ok []) "" false).result.status
      = "error"
  ∧ (Workflow.run_workflow (fun _ => false) true 8192 (Except.ok [])
        "" false).result.errorMessage ≠ ""
  ∧ (Workflow.run_workflow (fun _ => false) true 8192 (Except.ok [])
        "" false).classifierCalled = false
  ∧ (Workflow.run_workflow (fun _ => false) true 8192 (Except.ok [])
        "" false).extractorCalled = false
  ∧ (Workflow.run_workflow (fun _ => false) true 8192 (Except.ok [])
        "" false).result.messages.length = 2 :=
  invalid_path_error_policy (fun _ => false) true 8192 (Except.ok []) "" false (Or.inl rfl)

/-- C7: for every input — any path, flags, context budget, file-system
state and extraction outcome — the status of the returned result is
either "completed" or "error"; no run ends in "pending", "validated" or
"classified". -/
theorem final_status_terminal (fileExists : String → Bool) (fileReadable : Bool)
    (maxContextTokens : Int) (extractionResult : Except String (List String))
    (documentPath : String) (useVision : Bool) :
    (Workflow.run_workflow fileExists fileReadable maxContextTokens extractionResult
        documentPath useVision).result.status = "completed"
  ∨ (Workflow.run_workflow fileExists fileReadable maxContextTokens extractionResult
        documentPath useVision).result.status = "error" := by
  by_cases h1 : documentPath = ""
  · subst h1
    right
    rfl
  · by_cases h2 : fileExists documentPath = true
    · by_cases h3 : DocAgent.validate_document documentPath = true
      · cases hx : extractionResult with
        | ok data =>
          left
          simp [Workflow.run_workflow, h1, h2, h3, hx]
        | error e =>
          right
          simp [Workflow.run_workflow, h1, h2, h3, hx]
      · right
        simp [Workflow.run_workflow, h1, h2, h3]
    · right
      simp [Workflow.run_workflow, h1, h2]

/-- C8: the pagination merge is first-writer-wins per field: for segment A
populating field x and a later segment B populating x (with a different
value) and y, the merged record keeps A's value for x and takes B's value
for y, never overwriting a populated field. -/
theorem pagination_merge_first_writer_wins (x y va vb wb : String)
    (hxy : x ≠ y) (hvv : va ≠ vb) :
    mergeSegments [[(x, va)], [(x, vb), (y, wb)]] = [(x, va), (y, wb)] := by
  simp [mergeSegments, mergeSegmentFields, hxy]

/-- Witness for C8: merging segment A = {x ↦ "1"} then segment B =
{x ↦ "2", y ↦ "3"} yields x ↦ "1" (A's value kept) and y ↦ "3". -/
theorem pagination_merge_first_writer_wins_witness :
    mergeSegments [[("x", "1")], [("x", "2"), ("y", "3")]] = [("x", "1"), ("y", "3")] :=
  pagination_merge_first_writer_wins "x" "y" "1" "2" "3" (by decide) (by decide)

/-- C10: `validate_document` accepts a path exactly when the lowercased
`Path(...).suffix` is one of the nine supported extensions; a path whose
suffix is empty (no extension) is rejected; an uppercase extension such
as ".PDF" is accepted. -/
theorem validate_document_suffix_policy (filePath : String) :
    (DocAgent.validate_document filePath = true ↔
      DocAgent.lowerString (DocAgent.pathSuffix filePath) ∈ DocAgent.get_supported_formats)
  ∧ (DocAgent.pathSuffix filePath = "" → DocAgent.validate_document filePath = false)
  ∧ DocAgent.validate_document "scan.PDF" = true
  ∧ DocAgent.validate_document "notes" = false := by
  refine ⟨?_, ?_, by decide, by decide⟩
  · simp [DocAgent.validate_document]
  · intro hs
    simp [DocAgent.validate_document, hs]
    decide

/-- Witness for C10: "notes" has an empty suffix and is rejected. -/
theorem validate_document_suffix_policy_witness :
    DocAgent.validate_document "notes" = false :=
  (validate_document_suffix_policy "notes").2.1 rfl
